import Mathlib

/-!
Verification of the deep-research CLI and MCP server
(`deepresearch_cli/cli.py`, `mcp_deepresearch/server.py`).

The Python sources are shallowly embedded below: pure functions become Lean
functions, the external API calls become explicit oracle parameters
(`Except`/sum values describing what the call returned or raised), machine
floats become exact rationals, and the polling loop becomes a fuel-indexed
recursion that records its poll/sleep events.
-/

/-! ### Cost estimator (`cli.py`, `_calculate_cost`, lines 363-412) -/

/-- One row of the static price table: dollars per million tokens for fresh
input, cached input and output. -/
structure ModelPricing where
  input : ℚ
  cached_input : ℚ
  output : ℚ
deriving DecidableEq, Repr

/-- The static `pricing` dict of `_calculate_cost` (cli.py lines 367-383).
The float literals 10.00, 2.50, 0.25, 0.025, ... are exact binary floats in
Python; they are embedded as the equal rationals. -/
def pricing (model : String) : Option ModelPricing :=
  if model = "o3-deep-research" then some ⟨10, 5/2, 40⟩
  else if model = "o4-mini-deep-research" then some ⟨2, 1/2, 8⟩
  else if model = "gpt-5-mini" then some ⟨1/4, 1/40, 2⟩
  else none

/-- The usage dict handed to `_calculate_cost`: each key the function reads is
an optional field (`none` models a missing key).
`prompt_tokens_details_cached_tokens` models
`usage_data.get("prompt_tokens_details", {}).get("cached_tokens", 0)`:
a missing details dict and a missing inner key both become `none`. -/
structure UsageData where
  prompt_tokens : Option Nat
  input_tokens : Option Nat
  completion_tokens : Option Nat
  output_tokens : Option Nat
  prompt_tokens_details_cached_tokens : Option Nat
  total_tokens : Option Nat
deriving DecidableEq, Repr

/-- `usage_data.get("prompt_tokens", 0) or usage_data.get("input_tokens", 0)`
(cli.py line 391): Python's `or` takes the second operand when the first is
missing or zero. -/
def extractInputTokens (u : UsageData) : Nat :=
  let pt := u.prompt_tokens.getD 0
  if pt = 0 then u.input_tokens.getD 0 else pt

/-- `usage_data.get("completion_tokens", 0) or usage_data.get("output_tokens", 0)`
(cli.py line 392). -/
def extractOutputTokens (u : UsageData) : Nat :=
  let ct := u.completion_tokens.getD 0
  if ct = 0 then u.output_tokens.getD 0 else ct

/-- `usage_data.get("prompt_tokens_details", {}).get("cached_tokens", 0)`
(cli.py line 393). -/
def extractCachedTokens (u : UsageData) : Nat :=
  u.prompt_tokens_details_cached_tokens.getD 0

/-- The success dict returned by `_calculate_cost` (cli.py lines 402-412). -/
structure CostInfo where
  input_tokens : Nat
  cached_tokens : Nat
  output_tokens : Nat
  total_tokens : Nat
  input_cost : ℚ
  cached_cost : ℚ
  output_cost : ℚ
  total_cost : ℚ
  model : String
deriving DecidableEq, Repr

/-- `_calculate_cost` returns either a dict with an `"error"` key or the full
cost dict; the two shapes are the two constructors. -/
inductive CostResult where
  | error (msg : String)
  | ok (info : CostInfo)
deriving DecidableEq, Repr

/-- `_calculate_cost(usage_data, model)` (cli.py lines 363-412).
Token counts are `Nat` (Python ints reported by the API); costs are exact
rationals standing for the float arithmetic.  `cached_cost` is
`cached_tokens * rate / 1e6 if cached_tokens else 0`, hence the guard. -/
def _calculate_cost (usage_data : UsageData) (model : String) : CostResult :=
  match pricing model with
  | none => .error ("Pricing not available for model: " ++ model)
  | some model_pricing =>
    let input_tokens := extractInputTokens usage_data
    let output_tokens := extractOutputTokens usage_data
    let cached_tokens := extractCachedTokens usage_data
    let total_tokens := usage_data.total_tokens.getD (input_tokens + output_tokens)
    let input_cost : ℚ :=
      ((input_tokens : ℚ) - (cached_tokens : ℚ)) * model_pricing.input / 1000000
    let cached_cost : ℚ :=
      if cached_tokens ≠ 0 then (cached_tokens : ℚ) * model_pricing.cached_input / 1000000
      else 0
    let output_cost : ℚ := (output_tokens : ℚ) * model_pricing.output / 1000000
    let total_cost : ℚ := input_cost + cached_cost + output_cost
    .ok ⟨input_tokens, cached_tokens, output_tokens, total_tokens,
         input_cost, cached_cost, output_cost, total_cost, model⟩

/-! ### Report writer (`cli.py`, `_format_results`, lines 415-451) -/

/-- Insert a comma after every third character; the input is the reversed
digit list of a number, so this realises Python's thousands separator. -/
def groupThrees : List Char → List Char
  | a :: b :: c :: d :: rest => a :: b :: c :: ',' :: groupThrees (d :: rest)
  | l => l

/-- Python's `format(n, ",")` for a non-negative int (the `:,` in the
f-strings of `_format_results`). -/
def formatComma (n : Nat) : String :=
  String.mk (groupThrees (toString n).data.reverse).reverse

/-- Round to the nearest integer, ties to even, as Python's float formatting
does (approximated over ℚ). -/
def roundHalfEven (q : ℚ) : ℤ :=
  let f := ⌊q⌋
  if q - f < 1/2 then f
  else if 1/2 < q - f then f + 1
  else if f % 2 = 0 then f else f + 1

/-- Left-pad with zeros to the given length. -/
def padLeftZeros (s : String) (len : Nat) : String :=
  if s.length < len then String.mk (List.replicate (len - s.length) '0') ++ s else s

/-- Python's `format(x, ".4f")` (the `:.4f` in `_format_results`), over the
exact rationals standing for the floats. -/
def formatDollar4 (q : ℚ) : String :=
  let n := roundHalfEven (q * 10000)
  let sign := if n < 0 then "-" else ""
  let m := n.natAbs
  sign ++ toString (m / 10000) ++ "." ++ padLeftZeros (toString (m % 10000)) 4

/-- The `cost_section` local of `_format_results` (cli.py lines 421-435):
emitted only when `cost_info` is present and carries no `"error"` key
(line 422); the string literal reproduces the f-string template verbatim. -/
def costSection (cost_info : Option CostResult) : String :=
  match cost_info with
  | some (.ok c) =>
      "\n\n## Token Usage & Cost\n\n**Input Tokens:** " ++ formatComma c.input_tokens ++
      "\n**Cached Tokens:** " ++ formatComma c.cached_tokens ++
      "\n**Output Tokens:** " ++ formatComma c.output_tokens ++
      "\n**Total Tokens:** " ++ formatComma c.total_tokens ++
      "\n\n**Input Cost:** $" ++ formatDollar4 c.input_cost ++
      "\n**Cached Cost:** $" ++ formatDollar4 c.cached_cost ++
      "\n**Output Cost:** $" ++ formatDollar4 c.output_cost ++
      "\n**Total Cost:** $" ++ formatDollar4 c.total_cost
  | _ => ""

/-- `_format_results(content, query, model, cost_info)` (cli.py lines
415-451): the fixed report template around `costSection`.  The
`datetime.now().strftime(...)` call is a side effect and is modelled as the
extra `timestamp` parameter; the string literals reproduce the f-string
template verbatim. -/
def _format_results (content query model : String) (cost_info : Option CostResult)
    (timestamp : String) : String :=
  "# Deep Research Results\n\n**Query:** " ++ query ++
  "\n**Generated:** " ++ timestamp ++
  "\n**Model:** " ++ model ++
  "\n**Tool:** deepresearch-cli" ++ costSection cost_info ++
  "\n\n---\n\n" ++ content ++ "\n\n---\n\n" ++
  "*Generated using OpenAI Deep Research via deepresearch-cli*\n"

/-! ### Query enhancer (`cli.py`, `enhance_research_prompt`, lines 40-123)
and the basic query builder (`_build_basic_query`, lines 323-360) -/

/-- One optional section of `prompt_parts`: Python's `if context:` skips both
`None` and the empty string. -/
def optPart (label : String) (v : Option String) : List String :=
  match v with
  | some s => if s = "" then [] else [label ++ s]
  | none => []

/-- The `input_text` assembled from `prompt_parts` (cli.py lines 92-104). -/
def enhanceInputText (query : String) (context focus format_type : Option String) :
    String :=
  String.intercalate "\n\n"
    (["Research Query: " ++ query] ++
      optPart "Background Context: " context ++
      optPart "Source Focus: " focus ++
      optPart "Preferred Output Format: " format_type)

/-- `enhance_research_prompt` (cli.py lines 40-123).  The network call
`client.responses.create(...)` is the oracle `call`, mapping the submitted
`input_text` to either the response's `output_text` or a raised exception;
the `try/except` returns the original `query` on any exception. -/
def enhance_research_prompt (query : String) (context focus format_type : Option String)
    (call : String → Except String String) : String :=
  match call (enhanceInputText query context focus format_type) with
  | .ok output_text => output_text
  | .error _ => query

/-- The `focus_instructions` dict of `_build_basic_query` (cli.py lines
332-338). -/
def focusInstructions (f : String) : Option String :=
  if f = "academic" then
    some "Prioritize peer-reviewed research, academic papers, official publications, and scholarly sources."
  else if f = "business" then
    some "Focus on industry reports, market research, financial data, company reports, and business analytics."
  else if f = "news" then
    some "Emphasize recent news articles, press releases, official statements, and current events coverage."
  else if f = "reports" then
    some "Concentrate on official reports, government documents, white papers, and institutional publications."
  else if f = "technical" then
    some "Focus on technical documentation, specifications, standards, and expert technical sources."
  else none

/-- `_build_basic_query` (cli.py lines 323-360). -/
def _build_basic_query (query : String) (context focus format_type : Option String) :
    String :=
  let source_instruction :=
    match focus with
    | some f =>
        if f = "" then "Include reliable, up-to-date sources with inline citations."
        else
          match focusInstructions f.toLower with
          | some instr => instr
          | none => "Prioritize sources related to: " ++ f ++ ". Include inline citations."
    | none => "Include reliable, up-to-date sources with inline citations."
  String.intercalate "\n\n"
    (["Research Query: " ++ query] ++
      optPart "Background Context: " context ++
      ["Source Requirements: " ++ source_instruction] ++
      optPart "Output Format: " format_type ++
      ["Requirements:",
       "- Include specific figures, trends, statistics, and measurable outcomes",
       "- Provide inline citations and return all source metadata",
       "- Be analytical and avoid generalities",
       "- Use clear, professional language",
       "- Structure information with appropriate headers and formatting"])

/-- The enhancement step of `conduct_research` (cli.py lines 232-240): the
query submitted to the research API is the enhanced one when
`enhance_prompt` is set, the basic built one otherwise. -/
def conductResearchQuery (enhance_prompt : Bool) (query : String)
    (context focus format_type : Option String)
    (call : String → Except String String) : String :=
  if enhance_prompt then enhance_research_prompt query context focus format_type call
  else _build_basic_query query context focus format_type

/-! ### Completion poller (`cli.py`, `conduct_research`, lines 254-276) -/

/-- What `client.responses.retrieve(response.id)` hands back on one poll:
`hasStatus` models `hasattr(status_response, 'status')`. -/
structure StatusResponse where
  hasStatus : Bool
  status : String
  output_text : String
  usage : Option UsageData
deriving DecidableEq, Repr

/-- One poll attempt: the retrieve call either returned a response or raised
(caught by `except Exception as poll_error`). -/
inductive PollAttempt where
  | resp (r : StatusResponse)
  | exn (msg : String)
deriving DecidableEq, Repr

/-- The observable events of the loop: a retrieve call, or an
`await asyncio.sleep(seconds)`. -/
inductive PollEvent where
  | poll
  | sleep (seconds : Nat)
deriving DecidableEq, Repr

/-- How the loop ends: `break` with the completed response (line 265), or
`return "Research failed"` (line 268). -/
inductive LoopOutcome where
  | completedRes (r : StatusResponse)
  | failedRes (sentinel : String)
deriving DecidableEq, Repr

/-- The `while True` polling loop of `conduct_research` (cli.py lines
256-276).  `oracle i` is what the `i`-th retrieve call does; `fuel` bounds
the number of iterations unrolled (`none` = the loop is still running after
`fuel` iterations — the source loop has no bound of its own).  The returned
event list records each poll and each fixed 30-second sleep in order:
`completed` breaks without sleeping, `failed` returns the sentinel without
sleeping, any other status, a response without a `status` attribute, and a
raised exception all sleep 30 seconds and re-poll. -/
def pollLoop (oracle : Nat → PollAttempt) : Nat → Nat → Option (LoopOutcome × List PollEvent)
  | 0, _ => none
  | fuel + 1, i =>
    match oracle i with
    | .exn _ =>
        (pollLoop oracle fuel (i + 1)).map (fun x => (x.1, .poll :: .sleep 30 :: x.2))
    | .resp r =>
        if r.hasStatus then
          if r.status = "completed" then some (.completedRes r, [.poll])
          else if r.status = "failed" then some (.failedRes "Research failed", [.poll])
          else (pollLoop oracle fuel (i + 1)).map (fun x => (x.1, .poll :: .sleep 30 :: x.2))
        else (pollLoop oracle fuel (i + 1)).map (fun x => (x.1, .poll :: .sleep 30 :: x.2))

/-- A poll attempt on which the source loop exits: a response that has a
`status` attribute equal to `"completed"` or `"failed"`. -/
def terminalAttempt : PollAttempt → Bool
  | .resp r => r.hasStatus && (r.status == "completed" || r.status == "failed")
  | .exn _ => false

/-! ### CLI exit behaviour (`cli.py`, `main`, lines 553-586) -/

/-- Python's `s.startswith(p)`: `p` is an initial run of `s`'s characters. -/
def strStartsWith (s p : String) : Bool :=
  decide (p.data = s.data.take p.data.length)

/-- The exit code `main` produces from the string `conduct_research` returns
(cli.py lines 567-579): a result starting with `"Error:"` prints an error
and exits 1; every other result is announced as a success (process exit
code 0). -/
def mainExitCode (result : String) : Nat :=
  if strStartsWith result "Error:" then 1 else 0

/-! ### Report-directory creation (`cli.py` lines 132-133 and 187-189) -/

/-- `Path(output_path).parent`, for a path given as its components. -/
def outputDirOf (path : List String) : List String := path.dropLast

/-- The non-empty initial segments of a directory path: the directory itself
and every intermediate directory above it. -/
def ancestorDirs (dir : List String) : List (List String) :=
  (List.range dir.length).map (fun k => dir.take (k + 1))

/-- Record one directory as existing, keeping the filesystem duplicate-free. -/
def insertDir (acc : List (List String)) (p : List String) : List (List String) :=
  if p ∈ acc then acc else acc ++ [p]

/-- `output_dir.mkdir(parents=True, exist_ok=True)` (cli.py lines 133 and
189).  A filesystem is the list of existing directories (each a component
list); the call adds every missing ancestor of `dir` and, with
`exist_ok=True` and `parents=True`, never raises — the `Except` layer records
that no error path exists. -/
def mkdirParentsExistOk (fs : List (List String)) (dir : List String) :
    Except String (List (List String)) :=
  .ok ((ancestorDirs dir).foldl insertDir fs)

/-! ### MCP tool (`server.py`, `deep_research`, lines 91-182) -/

/-- `message.content` of one chat-completion choice (`None` or a string). -/
structure ChatMessage where
  content : Option String
deriving DecidableEq, Repr

/-- One element of `response.choices`. -/
structure ChatChoice where
  message : ChatMessage
deriving DecidableEq, Repr

/-- The `ChatCompletion` shape `deep_research` reads. -/
structure ChatCompletion where
  choices : List ChatChoice
deriving DecidableEq, Repr

/-- What `openai_client.chat.completions.create(...)` did: returned a
response or raised. -/
inductive ApiCall where
  | resp (r : ChatCompletion)
  | exn (msg : String)
deriving DecidableEq, Repr

/-- The tool either returns the research string or raises `McpError`; no
third possibility exists in the embedding, which is exactly the "no raw
exception escapes" discipline of the source's `try/except`. -/
inductive ToolOutcome where
  | ok (s : String)
  | mcpError (msg : String)
deriving DecidableEq, Repr

/-- Python truthiness of `response.choices and response.choices[0].message.content`
restricted to the content: `None` and `""` are falsy. -/
def contentTruthy : Option String → Bool
  | some s => decide (s ≠ "")
  | none => false

/-- `deep_research` (server.py lines 91-182), with the API call as the
oracle.  The `raise McpError(error_msg)` for missing content (line 172) is
itself caught by the outer `except Exception` (line 174) and re-wrapped as
`McpError(f"DeepResearch API error: {str(e)}")`; `str` of that inner
`McpError` is modelled as its message string. -/
def deep_research (api : ApiCall) : ToolOutcome :=
  match api with
  | .exn e => .mcpError ("DeepResearch API error: " ++ e)
  | .resp r =>
      match r.choices with
      | [] =>
          .mcpError ("DeepResearch API error: " ++
            "No research content returned from DeepResearch API")
      | c :: _ =>
          if contentTruthy c.message.content then .ok (c.message.content.getD "")
          else
            .mcpError ("DeepResearch API error: " ++
              "No research content returned from DeepResearch API")

/-- The condition under which `deep_research` returns a string: the response
arrived, has a first choice, and that choice's message content is a
non-empty string. -/
def hasResearchContent (api : ApiCall) : Bool :=
  match api with
  | .resp r =>
      match r.choices with
      | c :: _ => contentTruthy c.message.content
      | [] => false
  | .exn _ => false

/-! ### Concrete inputs used to instantiate the theorems below -/

/-- A usage record: 100 prompt tokens of which 40 cached, 50 output tokens. -/
def uWit : UsageData := ⟨some 100, none, some 50, none, some 40, none⟩

/-- A usage record with more cached tokens than input tokens: every token
field absent except 1,000,000 cached tokens. -/
def uNeg : UsageData := ⟨none, none, none, none, some 1000000, none⟩

/-- A status endpoint whose every poll reports `status = "failed"`. -/
def failedOracle : Nat → PollAttempt := fun _ => .resp ⟨true, "failed", "", none⟩

/-- A status endpoint whose every poll raises. -/
def exnOracle : Nat → PollAttempt := fun _ => .exn "connection reset"

/-- An enhancement call that always raises. -/
def raisingCall : String → Except String String := fun _ => .error "network error"

/-! ### Helper lemmas -/

theorem pricing_rates_nonneg (model : String) (p : ModelPricing)
    (hp : pricing model = some p) :
    0 ≤ p.input ∧ 0 ≤ p.cached_input ∧ 0 ≤ p.output := by
  unfold pricing at hp
  split_ifs at hp <;> cases hp <;> exact ⟨by norm_num, by norm_num, by norm_num⟩

/-! ### The claims -/

/-- C1: for every usage record with `cached_tokens ≤ input_tokens` and a
model present in the price table, `_calculate_cost` returns
`input_cost = (input_tokens - cached_tokens) * input_rate / 1e6`,
`cached_cost = cached_tokens * cached_rate / 1e6`,
`output_cost = output_tokens * output_rate / 1e6`, and `total_cost` equal to
the sum of the three component costs and non-negative. -/
theorem calculate_cost_breakdown (u : UsageData) (model : String) (p : ModelPricing)
    (hp : pricing model = some p)
    (hc : extractCachedTokens u ≤ extractInputTokens u) :
    ∃ c : CostInfo, _calculate_cost u model = .ok c ∧
      c.input_cost =
        ((extractInputTokens u : ℚ) - (extractCachedTokens u : ℚ)) * p.input / 1000000 ∧
      c.cached_cost = (extractCachedTokens u : ℚ) * p.cached_input / 1000000 ∧
      c.output_cost = (extractOutputTokens u : ℚ) * p.output / 1000000 ∧
      c.total_cost = c.input_cost + c.cached_cost + c.output_cost ∧
      0 ≤ c.total_cost := by
  obtain ⟨hi, hci, ho⟩ := pricing_rates_nonneg model p hp
  have hsub : (0:ℚ) ≤ (extractInputTokens u : ℚ) - (extractCachedTokens u : ℚ) := by
    rw [sub_nonneg]
    exact_mod_cast hc
  have hA : (0:ℚ) ≤
      ((extractInputTokens u : ℚ) - (extractCachedTokens u : ℚ)) * p.input / 1000000 :=
    div_nonneg (mul_nonneg hsub hi) (by norm_num)
  have hB : (0:ℚ) ≤
      if extractCachedTokens u ≠ 0 then
        (extractCachedTokens u : ℚ) * p.cached_input / 1000000
      else 0 := by
    split
    · exact div_nonneg (mul_nonneg (Nat.cast_nonneg _) hci) (by norm_num)
    · exact le_refl 0
  have hC : (0:ℚ) ≤ (extractOutputTokens u : ℚ) * p.output / 1000000 :=
    div_nonneg (mul_nonneg (Nat.cast_nonneg _) ho) (by norm_num)
  refine ⟨⟨extractInputTokens u, extractCachedTokens u, extractOutputTokens u,
      u.total_tokens.getD (extractInputTokens u + extractOutputTokens u),
      ((extractInputTokens u : ℚ) - (extractCachedTokens u : ℚ)) * p.input / 1000000,
      (if extractCachedTokens u ≠ 0 then
        (extractCachedTokens u : ℚ) * p.cached_input / 1000000
      else 0),
      (extractOutputTokens u : ℚ) * p.output / 1000000,
      ((extractInputTokens u : ℚ) - (extractCachedTokens u : ℚ)) * p.input / 1000000 +
        (if extractCachedTokens u ≠ 0 then
          (extractCachedTokens u : ℚ) * p.cached_input / 1000000
        else 0) +
        (extractOutputTokens u : ℚ) * p.output / 1000000,
      model⟩, ?_, rfl, ?_, rfl, rfl, ?_⟩
  · simp only [_calculate_cost, hp]
  · by_cases h : extractCachedTokens u = 0
    · simp [h]
    · simp [h]
  · exact add_nonneg (add_nonneg hA hB) hC

theorem calculate_cost_breakdown_witness :
    pricing "o4-mini-deep-research" = some ⟨2, 1/2, 8⟩ ∧
    extractCachedTokens uWit ≤ extractInputTokens uWit ∧
    ∃ c : CostInfo, _calculate_cost uWit "o4-mini-deep-research" = .ok c ∧
      c.input_cost = ((extractInputTokens uWit : ℚ) - (extractCachedTokens uWit : ℚ)) *
        (⟨2, 1/2, 8⟩ : ModelPricing).input / 1000000 ∧
      c.cached_cost = (extractCachedTokens uWit : ℚ) *
        (⟨2, 1/2, 8⟩ : ModelPricing).cached_input / 1000000 ∧
      c.output_cost = (extractOutputTokens uWit : ℚ) *
        (⟨2, 1/2, 8⟩ : ModelPricing).output / 1000000 ∧
      c.total_cost = c.input_cost + c.cached_cost + c.output_cost ∧
      0 ≤ c.total_cost :=
  ⟨rfl, by decide,
    calculate_cost_breakdown uWit "o4-mini-deep-research" ⟨2, 1/2, 8⟩ rfl (by decide)⟩

/-- C10: `_calculate_cost` imposes no `cached_tokens ≤ input_tokens`
precondition: on a usage record with zero input and output tokens but
1,000,000 cached tokens, the `gpt-5-mini` row yields strictly negative
`input_cost` and `total_cost`. -/
theorem calculate_cost_negative_on_excess_cached :
    extractInputTokens uNeg < extractCachedTokens uNeg ∧
    ∃ c : CostInfo, _calculate_cost uNeg "gpt-5-mini" = .ok c ∧
      c.input_cost < 0 ∧ c.total_cost < 0 := by
  refine ⟨by decide, _, rfl, ?_, ?_⟩ <;>
    norm_num [extractInputTokens, extractOutputTokens, extractCachedTokens, uNeg]

/-- C2: for every model not in the price table, `_calculate_cost` returns
the tagged error value (no exception), and `_format_results` renders the
same report as with no cost info at all — the cost section is omitted. -/
theorem unknown_model_error_and_section_omitted (u : UsageData) (model : String)
    (hm : pricing model = none) :
    _calculate_cost u model = .error ("Pricing not available for model: " ++ model) ∧
    ∀ content query timestamp : String,
      _format_results content query model (some (_calculate_cost u model)) timestamp =
        _format_results content query model none timestamp := by
  have h1 : _calculate_cost u model = .error ("Pricing not available for model: " ++ model) := by
    simp only [_calculate_cost, hm]
  exact ⟨h1, fun content query timestamp => by rw [h1]; rfl⟩

theorem unknown_model_error_and_section_omitted_witness :
    pricing "gpt-4o" = none ∧
    (_calculate_cost uWit "gpt-4o" = .error ("Pricing not available for model: " ++ "gpt-4o") ∧
     ∀ content query timestamp : String,
       _format_results content query "gpt-4o" (some (_calculate_cost uWit "gpt-4o")) timestamp =
         _format_results content query "gpt-4o" none timestamp) :=
  ⟨rfl, unknown_model_error_and_section_omitted uWit "gpt-4o" rfl⟩

/-- C6: the report produced by `_format_results` contains the literal query,
the literal model name and the literal result text verbatim, the result
being bounded by the two horizontal-rule markers. -/
theorem format_results_verbatim (content query model timestamp : String)
    (cost_info : Option CostResult) :
    ∃ pre post : String,
      _format_results content query model cost_info timestamp =
        pre ++ "\n\n---\n\n" ++ content ++ "\n\n---\n\n" ++ post ∧
      (∃ a b : String, pre = a ++ query ++ b) ∧
      (∃ a b : String, pre = a ++ model ++ b) := by
  refine ⟨"# Deep Research Results\n\n**Query:** " ++ query ++ "\n**Generated:** " ++
      timestamp ++ "\n**Model:** " ++ model ++ "\n**Tool:** deepresearch-cli" ++
      costSection cost_info,
    "*Generated using OpenAI Deep Research via deepresearch-cli*\n", ?_,
    ⟨"# Deep Research Results\n\n**Query:** ",
     "\n**Generated:** " ++ timestamp ++ "\n**Model:** " ++ model ++
       "\n**Tool:** deepresearch-cli" ++ costSection cost_info, ?_⟩,
    ⟨"# Deep Research Results\n\n**Query:** " ++ query ++ "\n**Generated:** " ++
       timestamp ++ "\n**Model:** ",
     "\n**Tool:** deepresearch-cli" ++ costSection cost_info, ?_⟩⟩ <;>
  simp only [_format_results, String.append_assoc]

theorem pollLoop_succ (oracle : Nat → PollAttempt) (fuel i : Nat) :
    pollLoop oracle (fuel + 1) i =
      (match oracle i with
      | .exn _ =>
          (pollLoop oracle fuel (i + 1)).map (fun x => (x.1, .poll :: .sleep 30 :: x.2))
      | .resp r =>
          if r.hasStatus then
            if r.status = "completed" then some (.completedRes r, [.poll])
            else if r.status = "failed" then some (.failedRes "Research failed", [.poll])
            else (pollLoop oracle fuel (i + 1)).map (fun x => (x.1, .poll :: .sleep 30 :: x.2))
          else (pollLoop oracle fuel (i + 1)).map (fun x => (x.1, .poll :: .sleep 30 :: x.2))) :=
  rfl

/-- C3: if the status endpoint reports `"failed"` on the first poll, the
loop returns the literal failure sentinel immediately — the event trace is a
single poll, with no sleep and no further poll attempt. -/
theorem poll_failed_returns_immediately (oracle : Nat → PollAttempt) (r : StatusResponse)
    (fuel : Nat) (h0 : oracle 0 = .resp r) (hs : r.hasStatus = true)
    (hf : r.status = "failed") :
    pollLoop oracle (fuel + 1) 0 = some (.failedRes "Research failed", [.poll]) := by
  unfold pollLoop
  rw [h0]
  simp [hs, hf]

theorem poll_failed_returns_immediately_witness :
    pollLoop failedOracle 4 0 = some (.failedRes "Research failed", [.poll]) :=
  poll_failed_returns_immediately failedOracle ⟨true, "failed", "", none⟩ 3 rfl rfl rfl

/-- C7: an exception while checking status is swallowed and treated exactly
as a pending status — one fixed 30-second sleep, then a re-poll — and when no
poll ever reports `completed` or `failed` the loop runs out of any amount of
fuel without exiting: there is no backoff and no maximum attempt count. -/
theorem poll_error_swallowed_unbounded (oracle : Nat → PollAttempt) :
    (∀ i fuel msg, oracle i = .exn msg →
        pollLoop oracle (fuel + 1) i =
          (pollLoop oracle fuel (i + 1)).map (fun x => (x.1, .poll :: .sleep 30 :: x.2))) ∧
    (∀ i fuel r, oracle i = .resp r → terminalAttempt (.resp r) = false →
        pollLoop oracle (fuel + 1) i =
          (pollLoop oracle fuel (i + 1)).map (fun x => (x.1, .poll :: .sleep 30 :: x.2))) ∧
    ((∀ i, terminalAttempt (oracle i) = false) →
        ∀ fuel i, pollLoop oracle fuel i = none) := by
  refine ⟨?_, ?_, ?_⟩
  · intro i fuel msg h
    rw [pollLoop_succ, h]
  · intro i fuel r h hterm
    simp only [terminalAttempt, Bool.and_eq_false_iff, Bool.or_eq_false_iff,
      beq_eq_false_iff_ne, ne_eq] at hterm
    rw [pollLoop_succ, h]
    rcases hterm with hh | ⟨h1, h2⟩
    · simp [hh]
    · cases hb : r.hasStatus <;> simp [h1, h2]
  · intro hterm fuel
    induction fuel with
    | zero => intro i; rfl
    | succ n ih =>
      intro i
      have h := hterm i
      rw [pollLoop_succ]
      cases ho : oracle i with
      | exn m => rw [ih (i + 1)]; rfl
      | resp r =>
        rw [ho] at h
        simp only [terminalAttempt, Bool.and_eq_false_iff, Bool.or_eq_false_iff,
          beq_eq_false_iff_ne, ne_eq] at h
        rcases h with hh | ⟨h1, h2⟩
        · simp [hh, ih]
        · cases hb : r.hasStatus <;> simp [h1, h2, ih]

/-- C4: the code does not abort with exit code 1 on an explicit job failure:
the poll loop hands `main` the sentinel `"Research failed"`, which does not
start with `"Error:"`, so `main` takes the success branch and the process
exits 0 — against the spec's fatal-error tier. -/
theorem failed_job_gets_success_exit :
    pollLoop failedOracle 1 0 = some (.failedRes "Research failed", [.poll]) ∧
    strStartsWith "Research failed" "Error:" = false ∧
    mainExitCode "Research failed" = 0 := by
  refine ⟨poll_failed_returns_immediately failedOracle ⟨true, "failed", "", none⟩ 0 rfl rfl rfl,
    by decide, by decide⟩

/-- C5: when the enhancement call raises, `enhance_research_prompt` returns
the original query unmodified, and the query `conduct_research` goes on to
submit is that original query — no exception escapes the enhancement step. -/
theorem enhance_failure_returns_original (query : String)
    (context focus format_type : Option String)
    (call : String → Except String String)
    (hraise : ∀ s : String, ∃ e, call s = .error e) :
    enhance_research_prompt query context focus format_type call = query ∧
    conductResearchQuery true query context focus format_type call = query := by
  obtain ⟨e, he⟩ := hraise (enhanceInputText query context focus format_type)
  have h1 : enhance_research_prompt query context focus format_type call = query := by
    unfold enhance_research_prompt
    rw [he]
  exact ⟨h1, by unfold conductResearchQuery; rw [if_pos rfl]; exact h1⟩

theorem enhance_failure_returns_original_witness :
    enhance_research_prompt "q" none none none raisingCall = "q" ∧
    conductResearchQuery true "q" none none none raisingCall = "q" :=
  enhance_failure_returns_original "q" none none none raisingCall
    (fun _ => ⟨"network error", rfl⟩)

/-- C8: `deep_research` returns a string exactly when the API response has a
first choice with non-empty message content, and in every other case — a
raised exception, no choices, or missing/empty content — the outcome is a
structured `McpError`, never a raw exception. -/
theorem deep_research_structured_outcomes (api : ApiCall) :
    ((∃ s, deep_research api = .ok s) ↔ hasResearchContent api = true) ∧
    ((∃ m, deep_research api = .mcpError m) ↔ hasResearchContent api = false) := by
  cases api with
  | exn e => simp [deep_research, hasResearchContent]
  | resp r =>
    cases hc : r.choices with
    | nil => simp [deep_research, hasResearchContent, hc]
    | cons c rest =>
      by_cases ht : contentTruthy c.message.content = true
      · simp [deep_research, hasResearchContent, hc, ht]
      · simp only [Bool.not_eq_true] at ht
        simp [deep_research, hasResearchContent, hc, ht]

theorem insertDir_subset (l : List (List String)) (acc : List (List String))
    (x : List String) (hx : x ∈ acc) : x ∈ l.foldl insertDir acc := by
  induction l generalizing acc with
  | nil => exact hx
  | cons a t ih =>
    refine ih (insertDir acc a) ?_
    unfold insertDir
    split
    · exact hx
    · exact List.mem_append_left _ hx

theorem insertDir_adds (l : List (List String)) :
    ∀ acc x, x ∈ l → x ∈ l.foldl insertDir acc := by
  induction l with
  | nil => intro acc x hx; cases hx
  | cons a t ih =>
    intro acc x hx
    rcases List.mem_cons.mp hx with rfl | hx'
    · refine insertDir_subset t (insertDir acc x) x ?_
      unfold insertDir
      split
      · assumption
      · exact List.mem_append_right _ (List.mem_singleton.mpr rfl)
    · exact ih (insertDir acc a) x hx'

theorem insertDir_noop (l : List (List String)) (acc : List (List String))
    (h : ∀ x ∈ l, x ∈ acc) : l.foldl insertDir acc = acc := by
  induction l with
  | nil => rfl
  | cons a t ih =>
    have ha : insertDir acc a = acc := by
      unfold insertDir
      rw [if_pos (h a (List.mem_cons_self a t))]
    rw [List.foldl_cons, ha]
    exact ih (fun x hx => h x (List.mem_cons_of_mem a hx))

/-- C9: for a destination path whose parent directory does not yet exist,
the report writer's `mkdir(parents=True, exist_ok=True)` succeeds, creates
the parent directory and every intermediate directory, and a second
invocation on the resulting filesystem succeeds and changes nothing:
directory creation is idempotent. -/
theorem report_dir_creation_idempotent (fs : List (List String)) (path : List String)
    (_h : outputDirOf path ∉ fs) :
    ∃ fs', mkdirParentsExistOk fs (outputDirOf path) = .ok fs' ∧
      (∀ p ∈ ancestorDirs (outputDirOf path), p ∈ fs') ∧
      mkdirParentsExistOk fs' (outputDirOf path) = .ok fs' := by
  refine ⟨(ancestorDirs (outputDirOf path)).foldl insertDir fs, rfl,
    fun p hp => insertDir_adds _ fs p hp, ?_⟩
  unfold mkdirParentsExistOk
  rw [insertDir_noop _ _ (fun x hx => insertDir_adds _ fs x hx)]

theorem report_dir_creation_idempotent_witness :
    outputDirOf ["results", "deep", "report.md"] ∉ ([["archive"]] : List (List String)) ∧
    ∃ fs', mkdirParentsExistOk [["archive"]] (outputDirOf ["results", "deep", "report.md"]) = .ok fs' ∧
      (∀ p ∈ ancestorDirs (outputDirOf ["results", "deep", "report.md"]), p ∈ fs') ∧
      mkdirParentsExistOk fs' (outputDirOf ["results", "deep", "report.md"]) = .ok fs' :=
  ⟨by decide, report_dir_creation_idempotent [["archive"]] ["results", "deep", "report.md"]
    (by decide)⟩
